import Mathlib

/-!
Verification of the emotion-detection classifier and web handler of
`oaqjp-final-project-emb-ai`.

The development shallowly embeds `src/EmotionDetection/emotion_detection.py`
and `src/server.py`:

* Python floats are modelled as exact rationals `ℚ`.
* The Python result dict (keys `anger`, `disgust`, `fear`, `joy`, `sadness`,
  `dominant_emotion`, `status_code`) becomes the structure `EmotionResult`.
* The behaviour of the one outbound HTTP POST is abstracted into the oracle
  type `RemoteBehavior`: either a transport-level exception, or a response
  carrying an HTTP status and a body.  A body is `some payload` when
  `resp.json()["emotionPredictions"][0]["emotion"]` exists and every present
  named field converts with `float(...)`; every other malformed body is
  `none` (the `except` branch of the parse).
* `requests`/Flask plumbing is not modelled beyond this oracle; the handler
  `detect_emotion` takes the form field `text` and the oracle.
-/

/-- Whitespace characters recognised by Python `str.strip` (ASCII range),
used in `text_to_analyze.strip()`. -/
def pyIsSpace (c : Char) : Bool :=
  c == ' ' || c == '\t' || c == '\n' || c == '\r' || c == '\x0b' || c == '\x0c'

/-- `not text or not text.strip()` from line 83 of
`emotion_detection.py`: the string is empty or consists only of
whitespace. -/
def isBlank (s : List Char) : Bool :=
  s.all pyIsSpace

/-- Python `text.strip()` (used in `server.py` line 30): remove leading and
trailing whitespace. -/
def pyStrip (s : List Char) : List Char :=
  ((s.dropWhile pyIsSpace).reverse.dropWhile pyIsSpace).reverse

/-- `pat.isPrefixOf s` on character lists, written out so every use is
first-order. -/
def startsWithList : List Char → List Char → Bool
  | [], _ => true
  | _ :: _, [] => false
  | a :: as, b :: bs => a == b && startsWithList as bs

/-- Python substring test `w in s` on character lists. -/
def containsSub (s w : List Char) : Bool :=
  if startsWithList w s then true
  else
    match s with
    | [] => false
    | _ :: rest => containsSub rest w

/-- The Python result dict: keys `anger`, `disgust`, `fear`, `joy`,
`sadness`, `dominant_emotion`, `status_code`.  Score values are `None` or a
number; `dominant_emotion` is `None` or a field name. -/
structure EmotionResult where
  anger : Option ℚ
  disgust : Option ℚ
  fear : Option ℚ
  joy : Option ℚ
  sadness : Option ℚ
  dominant_emotion : Option String
  status_code : Nat
deriving Repr, DecidableEq

/-- `_none_result` (lines 18–28): the None-values dict for blank input and
HTTP 400 responses. -/
def noneResult : EmotionResult :=
  { anger := none
    disgust := none
    fear := none
    joy := none
    sadness := none
    dominant_emotion := none
    status_code := 400 }

/-- Python `max(out, key=out.get)` over a dict whose insertion order is
`current` followed by `rest`: keep the current key, replacing it only when a
later value is strictly greater. -/
def argmaxFirst : String → ℚ → List (String × ℚ) → String
  | k, _, [] => k
  | k, v, (k2, v2) :: rest =>
    if v < v2 then argmaxFirst k2 v2 rest else argmaxFirst k v rest

/-- `max(out, key=out.get)` where `out` holds the five emotion keys in
declaration order `anger, disgust, fear, joy, sadness`. -/
def dominantOf (a d f j s : ℚ) : String :=
  argmaxFirst "anger" a [("disgust", d), ("fear", f), ("joy", j), ("sadness", s)]

/-- Keyword list for `anger` (line 42). -/
def angerKeywords : List String := ["angry", "mad", "hate", "furious", "annoy"]

/-- Keyword list for `disgust` (line 45). -/
def disgustKeywords : List String := ["disgust", "disgusted", "gross"]

/-- Keyword list for `fear` (line 48). -/
def fearKeywords : List String := ["afraid", "scared", "fear", "terrified"]

/-- Keyword list for `joy` (line 51). -/
def joyKeywords : List String := ["happy", "glad", "love", "joy", "excited"]

/-- Keyword list for `sadness` (line 54). -/
def sadnessKeywords : List String := ["sad", "unhappy", "depressed", "sorrow"]

/-- One keyword loop of `_rule_based_detector`: starting from `0.0`, add
`1.0` for each keyword occurring in the lower-cased text. -/
def countFor (kws : List String) (textl : List Char) : ℚ :=
  kws.foldl (fun acc w => if containsSub textl w.data then acc + 1 else acc) 0

/-- `text.lower()` at line 33 (ASCII case mapping, the only case relevant to
the ASCII keyword lists). -/
def lowerOf (text : List Char) : List Char := text.map Char.toLower

/-- `buckets["anger"]` after the keyword loops. -/
def angerCount (text : List Char) : ℚ := countFor angerKeywords (lowerOf text)

/-- `buckets["disgust"]` after the keyword loops. -/
def disgustCount (text : List Char) : ℚ := countFor disgustKeywords (lowerOf text)

/-- `buckets["fear"]` after the keyword loops. -/
def fearCount (text : List Char) : ℚ := countFor fearKeywords (lowerOf text)

/-- `buckets["joy"]` after the keyword loops. -/
def joyCount (text : List Char) : ℚ := countFor joyKeywords (lowerOf text)

/-- `buckets["sadness"]` after the keyword loops. -/
def sadnessCount (text : List Char) : ℚ := countFor sadnessKeywords (lowerOf text)

/-- `total = sum(buckets.values())` at line 58. -/
def totalCount (text : List Char) : ℚ :=
  angerCount text + disgustCount text + fearCount text + joyCount text + sadnessCount text

/-- The zero-match default dict of lines 61–64, with `dominant_emotion`
computed by the same `max(out, key=out.get)` call as in the source. -/
def defaultDistribution : EmotionResult :=
  { anger := some 0.1
    disgust := some 0.05
    fear := some 0.05
    joy := some 0.6
    sadness := some 0.2
    dominant_emotion := some (dominantOf 0.1 0.05 0.05 0.6 0.2)
    status_code := 200 }

/-- `_rule_based_detector` (lines 31–69): keyword counting, default
distribution when nothing matched, otherwise normalisation by the total. -/
def ruleBasedDetector (text : List Char) : EmotionResult :=
  if totalCount text = 0 then defaultDistribution
  else
    { anger := some (angerCount text / totalCount text)
      disgust := some (disgustCount text / totalCount text)
      fear := some (fearCount text / totalCount text)
      joy := some (joyCount text / totalCount text)
      sadness := some (sadnessCount text / totalCount text)
      dominant_emotion :=
        some (dominantOf (angerCount text / totalCount text)
          (disgustCount text / totalCount text) (fearCount text / totalCount text)
          (joyCount text / totalCount text) (sadnessCount text / totalCount text))
      status_code := 200 }

/-- The parsed value of `resp.json()["emotionPredictions"][0]["emotion"]`:
each named emotion is present with a numeric value, or absent (then
`emotions.get(name, 0.0)` supplies `0.0`). -/
structure EmotionPayload where
  anger : Option ℚ
  disgust : Option ℚ
  fear : Option ℚ
  joy : Option ℚ
  sadness : Option ℚ
deriving Repr, DecidableEq

/-- Oracle for the single `requests.post` call: either the call raises a
transport-level exception, or it yields a response with an HTTP status code
and a body.  The body is `some p` when the success-path parse of lines
107–115 succeeds with payload `p`, and `none` when that parse raises. -/
inductive RemoteBehavior where
  | transportError
  | response (status : Nat) (body : Option EmotionPayload)
deriving Repr, DecidableEq

/-- `emotion_detector` (lines 72–128), with the remote call abstracted as a
`RemoteBehavior` oracle. -/
def emotionDetector (text : String) (remote : RemoteBehavior) : EmotionResult :=
  if isBlank text.data then noneResult
  else
    match remote with
    | .transportError =>
      { ruleBasedDetector text.data with status_code := 200 }
    | .response status body =>
      if status = 400 then noneResult
      else if status = 200 then
        match body with
        | some p =>
          let a := p.anger.getD 0
          let d := p.disgust.getD 0
          let f := p.fear.getD 0
          let j := p.joy.getD 0
          let s := p.sadness.getD 0
          { anger := some a
            disgust := some d
            fear := some f
            joy := some j
            sadness := some s
            dominant_emotion := some (dominantOf a d f j s)
            status_code := 200 }
        | none =>
          { ruleBasedDetector text.data with status_code := 200 }
      else
        { ruleBasedDetector text.data with status_code := 200 }

/-- Rendering of a score slot in the f-string of `server.py`. -/
def fmtScore : Option ℚ → String
  | some q => toString q
  | none => "None"

/-- Rendering of the dominant-emotion slot in the f-string of
`server.py`. -/
def fmtDominant : Option String → String
  | some name => name
  | none => "None"

/-- The success template of `detect_emotion` (`server.py` lines 37–42);
`\x27` is the ASCII single-quote character of the Python f-string. -/
def formattedResponse (r : EmotionResult) : String :=
  "For the given statement, the system response is \x27anger\x27: " ++ fmtScore r.anger ++
    ", \x27disgust\x27: " ++ fmtScore r.disgust ++ ", \x27fear\x27: " ++ fmtScore r.fear ++
    ", \x27joy\x27: " ++ fmtScore r.joy ++ " and \x27sadness\x27: " ++ fmtScore r.sadness ++
    ". The dominant emotion is " ++ fmtDominant r.dominant_emotion ++ "."

/-- `request.form["text"].strip()` at `server.py` line 30, as a `String`
operation. -/
def stripStr (s : String) : String := ⟨pyStrip s.data⟩

/-- `detect_emotion` (`server.py` lines 22–42): strip the form field, run the
classifier, and render one of the two templates.  The guard is the Python
test `response.get("status_code") == 400 or response["dominant_emotion"] is
None`. -/
def detectEmotion (text : String) (remote : RemoteBehavior) : String :=
  let response := emotionDetector (stripStr text) remote
  if response.status_code = 400 ∨ response.dominant_emotion = none then
    "Invalid text! Please try again!"
  else
    formattedResponse response

/-- The maximum of the five scores. -/
def maxFive (a d f j s : ℚ) : ℚ := max a (max d (max f (max j s)))

/-- Second definition, following the spec's words rather than the source,
for comparison with `dominantOf`: "the field name with the maximum value;
ties broken by a fixed, documented field priority order", i.e. the first
field in declaration order `anger, disgust, fear, joy, sadness` whose value
attains the maximum of the five. -/
def firstMaxFieldSpec (a d f j s : ℚ) : String :=
  if maxFive a d f j s ≤ a then "anger"
  else if maxFive a d f j s ≤ d then "disgust"
  else if maxFive a d f j s ≤ f then "fear"
  else if maxFive a d f j s ≤ j then "joy"
  else "sadness"

/-- All keywords of the five lists, in source order. -/
def allKeywords : List String :=
  angerKeywords ++ disgustKeywords ++ fearKeywords ++ joyKeywords ++ sadnessKeywords

/-- A remote behaviour on which `emotion_detector` falls back to the local
heuristic: a transport-level exception, a status other than 200 and 400, or
a 200 response whose body fails the parse of lines 107–115. -/
def remoteFails : RemoteBehavior → Prop
  | .transportError => True
  | .response status body => (status ≠ 400 ∧ status ≠ 200) ∨ (status = 200 ∧ body = none)

/-- Every named value the remote service supplies (on a parseable 200
response) is non-negative; other behaviours impose no condition. -/
def payloadNonneg : RemoteBehavior → Prop
  | .response 200 (some p) =>
    0 ≤ p.anger.getD 0 ∧ 0 ≤ p.disgust.getD 0 ∧ 0 ≤ p.fear.getD 0 ∧
      0 ≤ p.joy.getD 0 ∧ 0 ≤ p.sadness.getD 0
  | _ => True

/-! ## Helper lemmas -/

lemma foldl_count_ge (textl : List Char) (kws : List String) (init : ℚ) :
    init ≤ kws.foldl (fun acc w => if containsSub textl w.data then acc + 1 else acc) init := by
  induction kws generalizing init with
  | nil => exact le_rfl
  | cons w ws ih =>
    simp only [List.foldl]
    refine le_trans ?_ (ih _)
    split <;> linarith

lemma countFor_nonneg (kws : List String) (textl : List Char) : 0 ≤ countFor kws textl :=
  foldl_count_ge textl kws 0

lemma foldl_count_eq (textl : List Char) (kws : List String) (init : ℚ) :
    kws.foldl (fun acc w => if containsSub textl w.data then acc + 1 else acc) init =
      init + ((kws.filter fun w => containsSub textl w.data).length : ℚ) := by
  induction kws generalizing init with
  | nil => simp
  | cons w ws ih =>
    simp only [List.foldl, List.filter]
    cases hw : containsSub textl w.data with
    | true => simp only [if_pos hw, ih, List.length_cons]; push_cast; ring
    | false => simp [ih]

lemma countFor_eq_filter_length (kws : List String) (textl : List Char) :
    countFor kws textl = ((kws.filter fun w => containsSub textl w.data).length : ℚ) := by
  have h := foldl_count_eq textl kws 0
  simpa [countFor] using h

lemma countFor_eq_zero (kws : List String) (textl : List Char)
    (h : ∀ w ∈ kws, containsSub textl w.data = false) : countFor kws textl = 0 := by
  rw [countFor_eq_filter_length]
  have : kws.filter (fun w => containsSub textl w.data) = [] := by
    rw [List.filter_eq_nil_iff]
    intro w hw
    simp [h w hw]
  simp [this]

lemma totalCount_nonneg (t : List Char) : 0 ≤ totalCount t := by
  have h1 := countFor_nonneg angerKeywords (lowerOf t)
  have h2 := countFor_nonneg disgustKeywords (lowerOf t)
  have h3 := countFor_nonneg fearKeywords (lowerOf t)
  have h4 := countFor_nonneg joyKeywords (lowerOf t)
  have h5 := countFor_nonneg sadnessKeywords (lowerOf t)
  unfold totalCount angerCount disgustCount fearCount joyCount sadnessCount
  linarith

lemma le_maxFive_a (a d f j s : ℚ) : a ≤ maxFive a d f j s := le_max_left _ _

lemma le_maxFive_d (a d f j s : ℚ) : d ≤ maxFive a d f j s :=
  le_max_of_le_right (le_max_left _ _)

lemma le_maxFive_f (a d f j s : ℚ) : f ≤ maxFive a d f j s :=
  le_max_of_le_right (le_max_of_le_right (le_max_left _ _))

lemma le_maxFive_j (a d f j s : ℚ) : j ≤ maxFive a d f j s :=
  le_max_of_le_right (le_max_of_le_right (le_max_of_le_right (le_max_left _ _)))

lemma le_maxFive_s (a d f j s : ℚ) : s ≤ maxFive a d f j s :=
  le_max_of_le_right (le_max_of_le_right (le_max_of_le_right (le_max_right _ _)))

lemma maxFive_choice (a d f j s : ℚ) :
    maxFive a d f j s = a ∨ maxFive a d f j s = d ∨ maxFive a d f j s = f ∨
      maxFive a d f j s = j ∨ maxFive a d f j s = s := by
  unfold maxFive
  rcases max_choice a (max d (max f (max j s))) with h1 | h1
  · exact Or.inl h1
  rcases max_choice d (max f (max j s)) with h2 | h2
  · exact Or.inr (Or.inl (h1.trans h2))
  rcases max_choice f (max j s) with h3 | h3
  · exact Or.inr (Or.inr (Or.inl ((h1.trans h2).trans h3)))
  rcases max_choice j s with h4 | h4
  · exact Or.inr (Or.inr (Or.inr (Or.inl (((h1.trans h2).trans h3).trans h4))))
  · exact Or.inr (Or.inr (Or.inr (Or.inr (((h1.trans h2).trans h3).trans h4))))

lemma dominantOf_eq_firstMaxFieldSpec (a d f j s : ℚ) :
    dominantOf a d f j s = firstMaxFieldSpec a d f j s := by
  have ha := le_maxFive_a a d f j s
  have hd := le_maxFive_d a d f j s
  have hf := le_maxFive_f a d f j s
  have hj := le_maxFive_j a d f j s
  have hs := le_maxFive_s a d f j s
  have hc := maxFive_choice a d f j s
  simp only [dominantOf, argmaxFirst, firstMaxFieldSpec]
  split_ifs <;>
    first
      | rfl
      | (exfalso; rcases hc with h | h | h | h | h <;> linarith)

lemma dominantOf_cases (a d f j s : ℚ) :
    dominantOf a d f j s = "anger" ∨ dominantOf a d f j s = "disgust" ∨
      dominantOf a d f j s = "fear" ∨ dominantOf a d f j s = "joy" ∨
      dominantOf a d f j s = "sadness" := by
  rw [dominantOf_eq_firstMaxFieldSpec]
  unfold firstMaxFieldSpec
  split_ifs <;> simp

lemma ruleBased_ok (t : List Char) :
    ∃ a d f j s : ℚ,
      ruleBasedDetector t =
        { anger := some a, disgust := some d, fear := some f, joy := some j,
          sadness := some s, dominant_emotion := some (dominantOf a d f j s),
          status_code := 200 } ∧
      0 ≤ a ∧ 0 ≤ d ∧ 0 ≤ f ∧ 0 ≤ j ∧ 0 ≤ s := by
  unfold ruleBasedDetector
  split_ifs with h
  · exact ⟨0.1, 0.05, 0.05, 0.6, 0.2, rfl, by norm_num, by norm_num, by norm_num,
      by norm_num, by norm_num⟩
  · have ht : 0 ≤ totalCount t := totalCount_nonneg t
    refine ⟨_, _, _, _, _, rfl, ?_, ?_, ?_, ?_, ?_⟩ <;>
      exact div_nonneg (countFor_nonneg _ _) ht

lemma ruleBased_with200 (t : List Char) :
    ({ ruleBasedDetector t with status_code := 200 } : EmotionResult) = ruleBasedDetector t := by
  obtain ⟨a, d, f, j, s, h, -⟩ := ruleBased_ok t
  rw [h]

lemma detector_cases (text : String) (remote : RemoteBehavior) :
    emotionDetector text remote = noneResult ∨
    ∃ a d f j s : ℚ,
      emotionDetector text remote =
        { anger := some a, disgust := some d, fear := some f, joy := some j,
          sadness := some s, dominant_emotion := some (dominantOf a d f j s),
          status_code := 200 } := by
  by_cases hb : isBlank text.data
  · left; simp [emotionDetector, hb]
  · rcases remote with _ | ⟨status, body⟩
    · right
      obtain ⟨a, d, f, j, s, h, -⟩ := ruleBased_ok text.data
      refine ⟨a, d, f, j, s, ?_⟩
      simp only [emotionDetector, hb]
      rw [if_neg (by simp [hb]), ruleBased_with200, h]
    · by_cases h4 : status = 400
      · left
        simp [emotionDetector, hb, h4]
      · by_cases h2 : status = 200
        · cases body with
          | some p =>
            right
            refine ⟨p.anger.getD 0, p.disgust.getD 0, p.fear.getD 0, p.joy.getD 0,
              p.sadness.getD 0, ?_⟩
            simp [emotionDetector, hb, h4, h2]
          | none =>
            right
            obtain ⟨a, d, f, j, s, h, -⟩ := ruleBased_ok text.data
            refine ⟨a, d, f, j, s, ?_⟩
            simp only [emotionDetector, hb]
            rw [if_neg (by simp [hb]), if_neg h4, if_pos h2, ruleBased_with200, h]
        · right
          obtain ⟨a, d, f, j, s, h, -⟩ := ruleBased_ok text.data
          refine ⟨a, d, f, j, s, ?_⟩
          simp only [emotionDetector, hb]
          rw [if_neg (by simp [hb]), if_neg h4, if_neg h2, ruleBased_with200, h]

lemma detector_fallback (text : String) (remote : RemoteBehavior)
    (hb : isBlank text.data = false) (hr : remoteFails remote) :
    emotionDetector text remote = ruleBasedDetector text.data := by
  rcases remote with _ | ⟨status, body⟩
  · simp only [emotionDetector]
    rw [if_neg (by simp [hb]), ruleBased_with200]
  · have hr2 : (status ≠ 400 ∧ status ≠ 200) ∨ (status = 200 ∧ body = none) := hr
    rcases hr2 with ⟨h4, h2⟩ | ⟨h2, hbody⟩
    · simp only [emotionDetector]
      rw [if_neg (by simp [hb]), if_neg h4, if_neg h2, ruleBased_with200]
    · subst h2
      subst hbody
      simp only [emotionDetector]
      rw [if_neg (by simp [hb]), if_pos trivial]
      exact ruleBased_with200 _

lemma normalized_sum_one (t : List Char) (h : totalCount t ≠ 0) :
    angerCount t / totalCount t + disgustCount t / totalCount t + fearCount t / totalCount t +
      joyCount t / totalCount t + sadnessCount t / totalCount t = 1 := by
  rw [div_add_div_same, div_add_div_same, div_add_div_same, div_add_div_same]
  show totalCount t / totalCount t = 1
  exact div_self h

/-! ## Claim theorems -/

/-- C1: for every input string that is empty or consists only of whitespace,
`emotion_detector` returns the rejected result (all five scores and
`dominant_emotion` are `None`, `status_code = 400`).  The result is the same
for every remote behaviour, so no remote call can influence it — in the
code, the early return at lines 83–84 precedes the `requests.post` call. -/
theorem C1_blank_input_rejected (text : String) (remote : RemoteBehavior)
    (h : isBlank text.data = true) :
    emotionDetector text remote = noneResult := by
  simp [emotionDetector, h]

theorem C1_blank_input_rejected_witness :
    isBlank "  ".data = true ∧ emotionDetector "  " .transportError = noneResult :=
  ⟨by decide, C1_blank_input_rejected "  " .transportError (by decide)⟩

/-- C2: for every non-blank input, an HTTP 400 response makes
`emotion_detector` return the rejected result with all scores `None`,
whatever the response body is — the heuristic is never consulted. -/
theorem C2_remote_400_rejected (text : String) (body : Option EmotionPayload)
    (hb : isBlank text.data = false) :
    emotionDetector text (.response 400 body) = noneResult := by
  simp [emotionDetector, hb]

theorem C2_remote_400_rejected_witness :
    isBlank "hello".data = false ∧
    emotionDetector "hello" (.response 400 (some ⟨some 1, none, none, none, none⟩)) = noneResult :=
  ⟨by decide,
    C2_remote_400_rejected "hello" (some ⟨some 1, none, none, none, none⟩) (by decide)⟩

/-- C8: `emotion_detector` never raises: in this embedding it is a total
function, and every input string and every remote behaviour ends in exactly
one of the two declared outcomes — the rejected `noneResult` dict or an ok
result with `status_code = 200`. -/
theorem C8_no_raise_two_outcomes (text : String) (remote : RemoteBehavior) :
    emotionDetector text remote = noneResult ∨
      (emotionDetector text remote).status_code = 200 := by
  rcases detector_cases text remote with h | ⟨a, d, f, j, s, h⟩
  · exact Or.inl h
  · right
    rw [h]

/-- C10: every result of `emotion_detector` carries a `status_code` that is
200 or 400; `status_code = 400` holds iff `dominant_emotion` is `None`, iff
all five scores are `None`; hence the web handler's two rejection tests
(`status_code == 400`, `dominant_emotion is None`) are equivalent, their
disjunction being equivalent to `status_code = 400` alone. -/
theorem C10_status_invariant (text : String) (remote : RemoteBehavior) :
    ((emotionDetector text remote).status_code = 200 ∨
      (emotionDetector text remote).status_code = 400) ∧
    ((emotionDetector text remote).status_code = 400 ↔
      (emotionDetector text remote).dominant_emotion = none) ∧
    ((emotionDetector text remote).dominant_emotion = none ↔
      ((emotionDetector text remote).anger = none ∧
        (emotionDetector text remote).disgust = none ∧
        (emotionDetector text remote).fear = none ∧
        (emotionDetector text remote).joy = none ∧
        (emotionDetector text remote).sadness = none)) ∧
    (((emotionDetector text remote).status_code = 400 ∨
        (emotionDetector text remote).dominant_emotion = none) ↔
      (emotionDetector text remote).status_code = 400) := by
  rcases detector_cases text remote with h | ⟨a, d, f, j, s, h⟩ <;> rw [h] <;>
    simp [noneResult]

/-- C9: for every form-field text and remote behaviour, the handler runs the
classifier on the stripped text; when that result is rejected
(`status_code = 400`) the response is the literal
"Invalid text! Please try again!", and when it is ok (`status_code = 200`)
the response is the fixed sentence template listing the five scores in the
order anger, disgust, fear, joy, sadness followed by the dominant
emotion. -/
theorem C9_handler_render (text : String) (remote : RemoteBehavior) :
    ((emotionDetector (stripStr text) remote).status_code = 400 →
      detectEmotion text remote = "Invalid text! Please try again!") ∧
    ((emotionDetector (stripStr text) remote).status_code = 200 →
      detectEmotion text remote =
        formattedResponse (emotionDetector (stripStr text) remote)) := by
  rcases detector_cases (stripStr text) remote with h | ⟨a, d, f, j, s, h⟩
  · constructor
    · intro _
      simp [detectEmotion, h, noneResult]
    · intro h200
      rw [h] at h200
      simp [noneResult] at h200
  · constructor
    · intro h400
      rw [h] at h400
      simp at h400
    · intro _
      simp only [detectEmotion]
      rw [h, if_neg (by simp)]

theorem C9_handler_render_witness :
    ((emotionDetector (stripStr "   ") .transportError).status_code = 400 ∧
      detectEmotion "   " .transportError = "Invalid text! Please try again!") ∧
    ((emotionDetector (stripStr "I am happy") .transportError).status_code = 200 ∧
      detectEmotion "I am happy" .transportError =
        formattedResponse (emotionDetector (stripStr "I am happy") .transportError)) :=
  ⟨⟨by decide, (C9_handler_render "   " .transportError).1 (by decide)⟩,
    ⟨by decide, (C9_handler_render "I am happy" .transportError).2 (by decide)⟩⟩

/-- C5: for every non-blank input, when the remote call returns HTTP 200
with a parseable payload, the returned scores are exactly the
remote-provided values with missing named emotions defaulted to `0.0`,
`dominant_emotion` is the argmax over the five fields (first in declaration
order on ties, by `firstMaxFieldSpec`), and the result is ok
(`status_code = 200`). -/
theorem C5_remote_success_exact (text : String) (p : EmotionPayload)
    (hb : isBlank text.data = false) :
    emotionDetector text (.response 200 (some p)) =
      { anger := some (p.anger.getD 0)
        disgust := some (p.disgust.getD 0)
        fear := some (p.fear.getD 0)
        joy := some (p.joy.getD 0)
        sadness := some (p.sadness.getD 0)
        dominant_emotion := some (firstMaxFieldSpec (p.anger.getD 0) (p.disgust.getD 0)
          (p.fear.getD 0) (p.joy.getD 0) (p.sadness.getD 0))
        status_code := 200 } := by
  simp [emotionDetector, hb, dominantOf_eq_firstMaxFieldSpec]

theorem C5_remote_success_exact_witness :
    isBlank "x".data = false ∧
    emotionDetector "x" (.response 200 (some ⟨some 0.1, none, none, some 0.9, none⟩)) =
      { anger := some 0.1, disgust := some 0, fear := some 0, joy := some 0.9,
        sadness := some 0,
        dominant_emotion := some (firstMaxFieldSpec 0.1 0 0 0.9 0)
        status_code := 200 } ∧
    firstMaxFieldSpec 0.1 0 0 0.9 0 = "joy" :=
  ⟨by decide,
    C5_remote_success_exact "x" ⟨some 0.1, none, none, some 0.9, none⟩ (by decide),
    by norm_num [firstMaxFieldSpec, maxFive, max_def]⟩

/-- C6: on every ok result (remote-success or heuristic path), the dominant
emotion is the field computed by `firstMaxFieldSpec` over the result's five
scores: the first field in the fixed declaration order `anger, disgust,
fear, joy, sadness` whose value attains their maximum — so on ties the
earliest declared field wins. -/
theorem C6_dominant_tie_break (text : String) (remote : RemoteBehavior)
    (hok : (emotionDetector text remote).status_code = 200) :
    (emotionDetector text remote).dominant_emotion =
      some (firstMaxFieldSpec ((emotionDetector text remote).anger.getD 0)
        ((emotionDetector text remote).disgust.getD 0)
        ((emotionDetector text remote).fear.getD 0)
        ((emotionDetector text remote).joy.getD 0)
        ((emotionDetector text remote).sadness.getD 0)) := by
  rcases detector_cases text remote with h | ⟨a, d, f, j, s, h⟩
  · rw [h] at hok
    simp [noneResult] at hok
  · rw [h]
    simp [dominantOf_eq_firstMaxFieldSpec]

theorem C6_dominant_tie_break_witness :
    (emotionDetector "I hate this, it\x27s so sad" .transportError).status_code = 200 ∧
    (emotionDetector "I hate this, it\x27s so sad" .transportError).dominant_emotion =
      some (firstMaxFieldSpec
        ((emotionDetector "I hate this, it\x27s so sad" .transportError).anger.getD 0)
        ((emotionDetector "I hate this, it\x27s so sad" .transportError).disgust.getD 0)
        ((emotionDetector "I hate this, it\x27s so sad" .transportError).fear.getD 0)
        ((emotionDetector "I hate this, it\x27s so sad" .transportError).joy.getD 0)
        ((emotionDetector "I hate this, it\x27s so sad" .transportError).sadness.getD 0)) ∧
    (emotionDetector "I hate this, it\x27s so sad" .transportError).anger =
      (emotionDetector "I hate this, it\x27s so sad" .transportError).sadness ∧
    (emotionDetector "I hate this, it\x27s so sad" .transportError).dominant_emotion =
      some "anger" := by
  have hfall : emotionDetector "I hate this, it\x27s so sad" .transportError =
      ruleBasedDetector "I hate this, it\x27s so sad".data :=
    detector_fallback _ _ (by decide) trivial
  have ha : angerCount "I hate this, it\x27s so sad".data = ((1 : ℕ) : ℚ) := by
    rw [angerCount, countFor_eq_filter_length,
      (by decide : angerKeywords.filter
        (fun w => containsSub (lowerOf ("I hate this, it\x27s so sad").data) w.data) = ["hate"])]
    simp
  have hd : disgustCount "I hate this, it\x27s so sad".data = ((0 : ℕ) : ℚ) := by
    rw [disgustCount, countFor_eq_filter_length,
      (by decide : disgustKeywords.filter
        (fun w => containsSub (lowerOf ("I hate this, it\x27s so sad").data) w.data) = [])]
    simp
  have hf : fearCount "I hate this, it\x27s so sad".data = ((0 : ℕ) : ℚ) := by
    rw [fearCount, countFor_eq_filter_length,
      (by decide : fearKeywords.filter
        (fun w => containsSub (lowerOf ("I hate this, it\x27s so sad").data) w.data) = [])]
    simp
  have hj : joyCount "I hate this, it\x27s so sad".data = ((0 : ℕ) : ℚ) := by
    rw [joyCount, countFor_eq_filter_length,
      (by decide : joyKeywords.filter
        (fun w => containsSub (lowerOf ("I hate this, it\x27s so sad").data) w.data) = [])]
    simp
  have hs : sadnessCount "I hate this, it\x27s so sad".data = ((1 : ℕ) : ℚ) := by
    rw [sadnessCount, countFor_eq_filter_length,
      (by decide : sadnessKeywords.filter
        (fun w => containsSub (lowerOf ("I hate this, it\x27s so sad").data) w.data) = ["sad"])]
    simp
  refine ⟨by decide, C6_dominant_tie_break _ _ (by decide), ?_, ?_⟩
  · rw [hfall]
    simp only [ruleBasedDetector, totalCount, ha, hd, hf, hj, hs]
    norm_num
  · rw [hfall]
    simp only [ruleBasedDetector, totalCount, ha, hd, hf, hj, hs]
    norm_num [dominantOf, argmaxFirst]

/-- C7: for every non-blank input on the fallback path in which no listed
keyword occurs as a substring of the lower-cased input, `emotion_detector`
returns exactly the fixed default distribution
`anger=0.10, disgust=0.05, fear=0.05, joy=0.60, sadness=0.20` with
`dominant_emotion = joy` and `status_code = 200`. -/
theorem C7_no_keyword_default (text : String) (remote : RemoteBehavior)
    (hb : isBlank text.data = false) (hr : remoteFails remote)
    (hk : ∀ w ∈ allKeywords, containsSub (lowerOf text.data) w.data = false) :
    emotionDetector text remote =
      { anger := some 0.1, disgust := some 0.05, fear := some 0.05, joy := some 0.6,
        sadness := some 0.2, dominant_emotion := some "joy", status_code := 200 } := by
  have h0 : totalCount text.data = 0 := by
    have ha : angerCount text.data = 0 :=
      countFor_eq_zero _ _ (fun w hw => hk w (by simp [allKeywords, hw]))
    have hd : disgustCount text.data = 0 :=
      countFor_eq_zero _ _ (fun w hw => hk w (by simp [allKeywords, hw]))
    have hf : fearCount text.data = 0 :=
      countFor_eq_zero _ _ (fun w hw => hk w (by simp [allKeywords, hw]))
    have hj : joyCount text.data = 0 :=
      countFor_eq_zero _ _ (fun w hw => hk w (by simp [allKeywords, hw]))
    have hs : sadnessCount text.data = 0 :=
      countFor_eq_zero _ _ (fun w hw => hk w (by simp [allKeywords, hw]))
    unfold totalCount
    rw [ha, hd, hf, hj, hs]
    norm_num
  rw [detector_fallback text remote hb hr]
  unfold ruleBasedDetector
  rw [if_pos h0]
  norm_num [defaultDistribution, dominantOf, argmaxFirst]

theorem C7_no_keyword_default_witness :
    isBlank "test".data = false ∧
    (∀ w ∈ allKeywords, containsSub (lowerOf "test".data) w.data = false) ∧
    emotionDetector "test" .transportError =
      { anger := some 0.1, disgust := some 0.05, fear := some 0.05, joy := some 0.6,
        sadness := some 0.2, dominant_emotion := some "joy", status_code := 200 } :=
  ⟨by decide, by decide,
    C7_no_keyword_default "test" .transportError (by decide) trivial (by decide)⟩

/-- C4: for every non-blank input, when the remote call fails (transport
error, non-200/400 status, or parse failure), the result is ok
(`status_code = 200`); each bucket count equals the number of listed
keywords present as substrings of the lower-cased input (one increment per
listed keyword); if no keyword matched the result is the fixed default
distribution, and otherwise each score is its count divided by the total,
all scores are non-negative and they sum to `1`. -/
theorem C4_fallback_normalized (text : String) (remote : RemoteBehavior)
    (hb : isBlank text.data = false) (hr : remoteFails remote) :
    (emotionDetector text remote).status_code = 200 ∧
    angerCount text.data =
      ((angerKeywords.filter fun w => containsSub (lowerOf text.data) w.data).length : ℚ) ∧
    disgustCount text.data =
      ((disgustKeywords.filter fun w => containsSub (lowerOf text.data) w.data).length : ℚ) ∧
    fearCount text.data =
      ((fearKeywords.filter fun w => containsSub (lowerOf text.data) w.data).length : ℚ) ∧
    joyCount text.data =
      ((joyKeywords.filter fun w => containsSub (lowerOf text.data) w.data).length : ℚ) ∧
    sadnessCount text.data =
      ((sadnessKeywords.filter fun w => containsSub (lowerOf text.data) w.data).length : ℚ) ∧
    (totalCount text.data = 0 → emotionDetector text remote = defaultDistribution) ∧
    (totalCount text.data ≠ 0 →
      (emotionDetector text remote).anger =
        some (angerCount text.data / totalCount text.data) ∧
      (emotionDetector text remote).disgust =
        some (disgustCount text.data / totalCount text.data) ∧
      (emotionDetector text remote).fear =
        some (fearCount text.data / totalCount text.data) ∧
      (emotionDetector text remote).joy =
        some (joyCount text.data / totalCount text.data) ∧
      (emotionDetector text remote).sadness =
        some (sadnessCount text.data / totalCount text.data) ∧
      0 ≤ angerCount text.data / totalCount text.data ∧
      0 ≤ disgustCount text.data / totalCount text.data ∧
      0 ≤ fearCount text.data / totalCount text.data ∧
      0 ≤ joyCount text.data / totalCount text.data ∧
      0 ≤ sadnessCount text.data / totalCount text.data ∧
      angerCount text.data / totalCount text.data +
        disgustCount text.data / totalCount text.data +
        fearCount text.data / totalCount text.data +
        joyCount text.data / totalCount text.data +
        sadnessCount text.data / totalCount text.data = 1) := by
  have hfall := detector_fallback text remote hb hr
  refine ⟨?_, countFor_eq_filter_length _ _, countFor_eq_filter_length _ _,
    countFor_eq_filter_length _ _, countFor_eq_filter_length _ _,
    countFor_eq_filter_length _ _, ?_, ?_⟩
  · obtain ⟨a, d, f, j, s, h, -⟩ := ruleBased_ok text.data
    rw [hfall, h]
  · intro h0
    rw [hfall]
    unfold ruleBasedDetector
    rw [if_pos h0]
  · intro h0
    have ht0 : 0 ≤ totalCount text.data := totalCount_nonneg _
    rw [hfall]
    unfold ruleBasedDetector
    rw [if_neg h0]
    exact ⟨rfl, rfl, rfl, rfl, rfl,
      div_nonneg (countFor_nonneg _ _) ht0, div_nonneg (countFor_nonneg _ _) ht0,
      div_nonneg (countFor_nonneg _ _) ht0, div_nonneg (countFor_nonneg _ _) ht0,
      div_nonneg (countFor_nonneg _ _) ht0, normalized_sum_one text.data h0⟩

theorem C4_fallback_normalized_witness :
    isBlank "I am so happy and excited today!".data = false ∧
    (emotionDetector "I am so happy and excited today!" .transportError).status_code = 200 ∧
    (emotionDetector "I am so happy and excited today!" .transportError).joy = some 1 ∧
    (emotionDetector "I am so happy and excited today!" .transportError).anger = some 0 := by
  have ha : angerCount "I am so happy and excited today!".data = ((0 : ℕ) : ℚ) := by
    rw [angerCount, countFor_eq_filter_length,
      (by decide : angerKeywords.filter
        (fun w => containsSub (lowerOf ("I am so happy and excited today!").data) w.data) = [])]
    simp
  have hd : disgustCount "I am so happy and excited today!".data = ((0 : ℕ) : ℚ) := by
    rw [disgustCount, countFor_eq_filter_length,
      (by decide : disgustKeywords.filter
        (fun w => containsSub (lowerOf ("I am so happy and excited today!").data) w.data) = [])]
    simp
  have hf : fearCount "I am so happy and excited today!".data = ((0 : ℕ) : ℚ) := by
    rw [fearCount, countFor_eq_filter_length,
      (by decide : fearKeywords.filter
        (fun w => containsSub (lowerOf ("I am so happy and excited today!").data) w.data) = [])]
    simp
  have hj : joyCount "I am so happy and excited today!".data = ((2 : ℕ) : ℚ) := by
    rw [joyCount, countFor_eq_filter_length,
      (by decide : joyKeywords.filter
        (fun w => containsSub (lowerOf ("I am so happy and excited today!").data) w.data) =
        ["happy", "excited"])]
    simp
  have hs : sadnessCount "I am so happy and excited today!".data = ((0 : ℕ) : ℚ) := by
    rw [sadnessCount, countFor_eq_filter_length,
      (by decide : sadnessKeywords.filter
        (fun w => containsSub (lowerOf ("I am so happy and excited today!").data) w.data) = [])]
    simp
  have hfall : emotionDetector "I am so happy and excited today!" .transportError =
      ruleBasedDetector "I am so happy and excited today!".data :=
    detector_fallback _ _ (by decide) trivial
  refine ⟨by decide,
    (C4_fallback_normalized "I am so happy and excited today!" .transportError
      (by decide) trivial).1, ?_, ?_⟩
  · rw [hfall]
    simp only [ruleBasedDetector, totalCount, ha, hd, hf, hj, hs]
    norm_num
  · rw [hfall]
    simp only [ruleBasedDetector, totalCount, ha, hd, hf, hj, hs]
    norm_num

/-- C3 counterexample: the claim fails as stated.  On the remote-success
parse path the code copies the remote-supplied numbers without validation
(lines 109–115), so a 200 response whose payload carries `anger = -1`
produces an ok result (`status_code = 200`) whose `anger` score is
negative. -/
theorem C3_negative_remote_counterexample :
    (emotionDetector "a"
      (.response 200 (some ⟨some (-1), none, none, none, none⟩))).status_code = 200 ∧
    (emotionDetector "a"
      (.response 200 (some ⟨some (-1), none, none, none, none⟩))).anger = some (-1) ∧
    ¬ (0 : ℚ) ≤ -1 := by
  refine ⟨by decide, by decide, by norm_num⟩

/-- C3 (amended): whenever `emotion_detector` returns an ok result, all five
scores are present and `dominant_emotion` is one of the five field names;
the scores are non-negative provided that any remote-supplied values (on a
parseable 200 response) are themselves non-negative — the code performs no
validation of its own.  (In this embedding all scores are rationals, hence
finite by construction.) -/
theorem C3_ok_scores_present_nonneg (text : String) (remote : RemoteBehavior)
    (hp : payloadNonneg remote) (hok : (emotionDetector text remote).status_code = 200) :
    ∃ a d f j s : ℚ,
      (emotionDetector text remote).anger = some a ∧
      (emotionDetector text remote).disgust = some d ∧
      (emotionDetector text remote).fear = some f ∧
      (emotionDetector text remote).joy = some j ∧
      (emotionDetector text remote).sadness = some s ∧
      0 ≤ a ∧ 0 ≤ d ∧ 0 ≤ f ∧ 0 ≤ j ∧ 0 ≤ s ∧
      ((emotionDetector text remote).dominant_emotion = some "anger" ∨
        (emotionDetector text remote).dominant_emotion = some "disgust" ∨
        (emotionDetector text remote).dominant_emotion = some "fear" ∨
        (emotionDetector text remote).dominant_emotion = some "joy" ∨
        (emotionDetector text remote).dominant_emotion = some "sadness") := by
  by_cases hb : isBlank text.data
  · simp [emotionDetector, hb, noneResult] at hok
  · have hb2 : isBlank text.data = false := by simpa using hb
    have hfb : remoteFails remote →
        ∃ a d f j s : ℚ,
          (emotionDetector text remote).anger = some a ∧
          (emotionDetector text remote).disgust = some d ∧
          (emotionDetector text remote).fear = some f ∧
          (emotionDetector text remote).joy = some j ∧
          (emotionDetector text remote).sadness = some s ∧
          0 ≤ a ∧ 0 ≤ d ∧ 0 ≤ f ∧ 0 ≤ j ∧ 0 ≤ s ∧
          ((emotionDetector text remote).dominant_emotion = some "anger" ∨
            (emotionDetector text remote).dominant_emotion = some "disgust" ∨
            (emotionDetector text remote).dominant_emotion = some "fear" ∨
            (emotionDetector text remote).dominant_emotion = some "joy" ∨
            (emotionDetector text remote).dominant_emotion = some "sadness") := by
      intro hr
      rw [detector_fallback text remote hb2 hr]
      obtain ⟨a, d, f, j, s, h, ha, hd, hf, hj, hs⟩ := ruleBased_ok text.data
      rw [h]
      refine ⟨a, d, f, j, s, rfl, rfl, rfl, rfl, rfl, ha, hd, hf, hj, hs, ?_⟩
      rcases dominantOf_cases a d f j s with h2 | h2 | h2 | h2 | h2 <;> simp [h2]
    rcases remote with _ | ⟨status, body⟩
    · exact hfb trivial
    · by_cases h4 : status = 400
      · subst h4
        simp [emotionDetector, hb2, noneResult] at hok
      · by_cases h2 : status = 200
        · subst h2
          cases body with
          | none => exact hfb (Or.inr ⟨rfl, rfl⟩)
          | some p =>
            have hp2 : 0 ≤ p.anger.getD 0 ∧ 0 ≤ p.disgust.getD 0 ∧ 0 ≤ p.fear.getD 0 ∧
                0 ≤ p.joy.getD 0 ∧ 0 ≤ p.sadness.getD 0 := hp
            obtain ⟨hpa, hpd, hpf, hpj, hps⟩ := hp2
            refine ⟨p.anger.getD 0, p.disgust.getD 0, p.fear.getD 0, p.joy.getD 0,
              p.sadness.getD 0, ?_, ?_, ?_, ?_, ?_, hpa, hpd, hpf, hpj, hps, ?_⟩
            · simp [emotionDetector, hb2]
            · simp [emotionDetector, hb2]
            · simp [emotionDetector, hb2]
            · simp [emotionDetector, hb2]
            · simp [emotionDetector, hb2]
            · have hdom : (emotionDetector text (.response 200 (some p))).dominant_emotion =
                  some (dominantOf (p.anger.getD 0) (p.disgust.getD 0) (p.fear.getD 0)
                    (p.joy.getD 0) (p.sadness.getD 0)) := by
                simp [emotionDetector, hb2]
              rw [hdom]
              rcases dominantOf_cases (p.anger.getD 0) (p.disgust.getD 0) (p.fear.getD 0)
                (p.joy.getD 0) (p.sadness.getD 0) with h3 | h3 | h3 | h3 | h3 <;> simp [h3]
        · exact hfb (Or.inl ⟨h4, h2⟩)

theorem C3_ok_scores_present_nonneg_witness :
    payloadNonneg (.response 200 (some ⟨some 0.2, some 0.1, none, some 0.5, some 0.2⟩)) ∧
    (∃ a d f j s : ℚ,
      (emotionDetector "hello"
        (.response 200 (some ⟨some 0.2, some 0.1, none, some 0.5, some 0.2⟩))).anger = some a ∧
      (emotionDetector "hello"
        (.response 200 (some ⟨some 0.2, some 0.1, none, some 0.5, some 0.2⟩))).disgust = some d ∧
      (emotionDetector "hello"
        (.response 200 (some ⟨some 0.2, some 0.1, none, some 0.5, some 0.2⟩))).fear = some f ∧
      (emotionDetector "hello"
        (.response 200 (some ⟨some 0.2, some 0.1, none, some 0.5, some 0.2⟩))).joy = some j ∧
      (emotionDetector "hello"
        (.response 200 (some ⟨some 0.2, some 0.1, none, some 0.5, some 0.2⟩))).sadness = some s ∧
      0 ≤ a ∧ 0 ≤ d ∧ 0 ≤ f ∧ 0 ≤ j ∧ 0 ≤ s ∧
      ((emotionDetector "hello"
          (.response 200 (some ⟨some 0.2, some 0.1, none, some 0.5, some 0.2⟩))).dominant_emotion =
            some "anger" ∨
        (emotionDetector "hello"
          (.response 200 (some ⟨some 0.2, some 0.1, none, some 0.5, some 0.2⟩))).dominant_emotion =
            some "disgust" ∨
        (emotionDetector "hello"
          (.response 200 (some ⟨some 0.2, some 0.1, none, some 0.5, some 0.2⟩))).dominant_emotion =
            some "fear" ∨
        (emotionDetector "hello"
          (.response 200 (some ⟨some 0.2, some 0.1, none, some 0.5, some 0.2⟩))).dominant_emotion =
            some "joy" ∨
        (emotionDetector "hello"
          (.response 200 (some ⟨some 0.2, some 0.1, none, some 0.5, some 0.2⟩))).dominant_emotion =
            some "sadness")) := by
  have hp : payloadNonneg (.response 200 (some ⟨some 0.2, some 0.1, none, some 0.5, some 0.2⟩)) := by
    refine ⟨?_, ?_, ?_, ?_, ?_⟩ <;> norm_num
  exact ⟨hp, C3_ok_scores_present_nonneg "hello"
    (.response 200 (some ⟨some 0.2, some 0.1, none, some 0.5, some 0.2⟩)) hp (by decide)⟩
